import Mathlib

/-
Verification development for the expression core in
src/lib/core/Expressions.ts (sparqlee).

The TypeScript classes are embedded shallowly:
  - JS runtime values that matter here (numbers with NaN and infinities,
    booleans, strings, Date, undefined) become the inductive JSVal;
  - thrown exceptions become an explicit Except over the inductive Err;
  - the class hierarchy Literal / NumericLiteral / BooleanLiteral /
    DateTimeLiteral / PlainLiteral / StringLiteral / NonLexicalLiteral is
    one structure Lit carrying a LitKind tag, since method dispatch in the
    source is by dynamic class;
  - the immutable.js Map keyed by List of argument types becomes an
    association list with structural key lookup (immutable.js collections
    compare keys structurally);
  - lodash isEqual on arrays of strings becomes list equality.

The module Consts.ts (C.categorize, C.DataTypeCategory) is imported by the
source file but is not among the given sources; it is modelled from the
spec where marked.
-/

set_option autoImplicit false

/-- An RDF named node (rdf-js NamedNode): wraps its IRI string, the field
named value as in the interface. -/
structure NamedNode where
  value : String
deriving DecidableEq, Repr

/-- Modelled from the spec: the enumeration C.DataTypeCategory from the
missing module util/Consts.ts. The spec lists the categories: integer,
decimal, float, double, boolean, string, plain (language-tagged) string,
date, time, dateTime, duration, and untyped. -/
inductive DataTypeCategory where
  | integer
  | decimal
  | float
  | double
  | boolean
  | str
  | plain
  | date
  | time
  | dateTime
  | duration
  | untyped
deriving DecidableEq, Repr

/-- The string value of a category: categories are string enum members in
the source, all of them non-empty (hence truthy in JS). -/
def DataTypeCategory.toStr : DataTypeCategory → String
  | .integer => "integer"
  | .decimal => "decimal"
  | .float => "float"
  | .double => "double"
  | .boolean => "boolean"
  | .str => "string"
  | .plain => "plain"
  | .date => "date"
  | .time => "time"
  | .dateTime => "dateTime"
  | .duration => "duration"
  | .untyped => "untyped"

def xsdNS : String := "http://www.w3.org/2001/XMLSchema#"

def rdfLangString : NamedNode :=
  ⟨"http://www.w3.org/1999/02/22-rdf-syntax-ns#langString"⟩

def xsdStringNode : NamedNode := ⟨xsdNS ++ "string"⟩

def xsdIntegerNode : NamedNode := ⟨xsdNS ++ "integer"⟩

def xsdBooleanNode : NamedNode := ⟨xsdNS ++ "boolean"⟩

/-- Modelled from the spec: C.categorize from the missing module
util/Consts.ts. Pure and total: it maps a datatype identifier to its
category, and every unrecognized identifier maps to the untyped category
rather than failing. -/
def categorize (dt : String) : DataTypeCategory :=
  if dt = xsdNS ++ "integer" then .integer
  else if dt = xsdNS ++ "decimal" then .decimal
  else if dt = xsdNS ++ "float" then .float
  else if dt = xsdNS ++ "double" then .double
  else if dt = xsdNS ++ "boolean" then .boolean
  else if dt = xsdNS ++ "string" then .str
  else if dt = xsdNS ++ "date" then .date
  else if dt = xsdNS ++ "time" then .time
  else if dt = xsdNS ++ "dateTime" then .dateTime
  else if dt = xsdNS ++ "duration" then .duration
  else if dt = rdfLangString.value then .plain
  else .untyped

/-- A JS number: NaN, the two infinities, or a finite value (modelled as a
rational; only finiteness and the zero test matter to this module). -/
inductive JSNum where
  | nan
  | posInf
  | negInf
  | fin (q : ℚ)
deriving DecidableEq, Repr

/-- JS boolean coercion of a number: 0, -0 and NaN are falsy, every other
number (infinities included) is truthy. -/
def JSNum.truthy : JSNum → Bool
  | .nan => false
  | .posInf => true
  | .negInf => true
  | .fin q => decide (q ≠ 0)

/-- The string rendering of a JS number by Number.prototype.toString. -/
def JSNum.toStr : JSNum → String
  | .nan => "NaN"
  | .posInf => "Infinity"
  | .negInf => "-Infinity"
  | .fin q => if q.den = 1 then toString q.num else toString q

/-- A JS value as can be stored in Literal.typedValue (the generic T of
Literal in the source is number, boolean, Date, string or undefined). -/
inductive JSVal where
  | undefined
  | num (n : JSNum)
  | bool (b : Bool)
  | str (s : String)
  | date (epochMs : ℤ)
deriving DecidableEq, Repr

/-- JS boolean coercion (the double negation !!x in the source). -/
def JSVal.truthy : JSVal → Bool
  | .undefined => false
  | .num n => n.truthy
  | .bool b => b
  | .str s => decide (s ≠ "")
  | .date _ => true

/-- Errors: the classes imported from util/Errors.ts plus the TypeErrors
the JS runtime itself raises. The source error objects also carry the
offending argument list; only the operator name is retained here. -/
inductive Err where
  | invalidArity (operator : String)
  | invalidArgumentTypes (operator : String)
  | unimplemented
  | notCoercible
  | jsTypeError (msg : String)
deriving DecidableEq, Repr

/-- The JS TypeError raised on reading a property of undefined. -/
def undefinedRead (prop : String) : Err :=
  .jsTypeError ("cannot read property of undefined: " ++ prop)

/-- Which concrete Literal subclass a literal was built as: the base class
Literal itself, or NumericLiteral, BooleanLiteral, DateTimeLiteral,
PlainLiteral, StringLiteral, NonLexicalLiteral. Method dispatch in the
source is by this dynamic class. -/
inductive LitKind where
  | base
  | numeric
  | boolean
  | dateTime
  | plain
  | simpleString
  | nonLexical
deriving DecidableEq, Repr

/-- The state of a constructed Literal object: typedValue, the optional
strValue and language, the dataType (held as Option since the constructor
parameter is optional), and the category field the constructor computed. -/
structure Lit where
  kind : LitKind
  typedValue : JSVal
  strValue : Option String
  dataType : Option NamedNode
  language : Option String
  category : DataTypeCategory
deriving DecidableEq, Repr

/-- The Literal constructor: stores its four parameters and computes
category as C.categorize(dataType.value). dataType is an optional
parameter, yet .value is read from it unconditionally, so an absent
dataType raises a TypeError at construction. No validation of the lexical
form happens here. -/
def Literal.construct (kind : LitKind) (typedValue : JSVal)
    (strValue : Option String) (dataType : Option NamedNode)
    (language : Option String) : Except Err Lit :=
  match dataType with
  | none => .error (undefinedRead "value")
  | some dt =>
      .ok ⟨kind, typedValue, strValue, some dt, language, categorize dt.value⟩

/-- The NonLexicalLiteral constructor: calls the Literal constructor, then
overwrites typedValue with undefined and category with untyped. -/
def NonLexicalLiteral.construct (typedValue : JSVal)
    (strValue : Option String) (dataType : Option NamedNode)
    (language : Option String) : Except Err Lit :=
  match Literal.construct .nonLexical typedValue strValue dataType language with
  | .error e => .error e
  | .ok l => .ok ⟨l.kind, .undefined, l.strValue, l.dataType, l.language, .untyped⟩

/-- coerceEBV by dynamic class: NumericLiteral and BooleanLiteral return
the JS truthiness of typedValue; PlainLiteral and StringLiteral return
strValue.length !== 0, reading length from the optional strValue without a
presence check; every other class inherits Term.coerceEBV, which throws
TypeError with the message about coercion (the NotCoercibleError of the
spec). -/
def Lit.coerceEBV (l : Lit) : Except Err Bool :=
  match l.kind with
  | .numeric => .ok l.typedValue.truthy
  | .boolean => .ok l.typedValue.truthy
  | .plain =>
      match l.strValue with
      | none => .error (undefinedRead "length")
      | some s => .ok (decide (s.length ≠ 0))
  | .simpleString =>
      match l.strValue with
      | none => .error (undefinedRead "length")
      | some s => .ok (decide (s.length ≠ 0))
  | _ => .error .notCoercible

/-- toString on a typedValue, as invoked by Literal.toRDF: throws the
undefined-read TypeError when the typed value is undefined. -/
def JSVal.jsToString : JSVal → Except Err String
  | .undefined => .error (undefinedRead "toString")
  | .num n => .ok n.toStr
  | .bool b => .ok (if b then "true" else "false")
  | .str s => .ok s
  | .date ms => .ok ("Date(" ++ toString ms ++ ")")

/-- The second argument the source passes to the rdf-data-model literal
factory: the JS expression language || dataType, whose value is the
language when it is a defined non-empty string, else the dataType, else
undefined. -/
inductive LangOrDt where
  | lang (s : String)
  | dt (n : NamedNode)
  | undefined
deriving DecidableEq, Repr

/-- An rdf-js literal term as produced by the external rdf-data-model
factory. -/
structure RDFLiteral where
  value : String
  language : String
  datatype : NamedNode
deriving DecidableEq, Repr

/-- Model of the external rdf-data-model literal factory: given a string
it builds a language-tagged literal with datatype rdf:langString; given a
named node it uses it as the datatype with no language; given undefined
the datatype defaults to xsd:string. -/
def RDFDM.literal (value : String) (langOrDt : LangOrDt) : RDFLiteral :=
  match langOrDt with
  | .lang s => ⟨value, s, rdfLangString⟩
  | .dt n => ⟨value, "", n⟩
  | .undefined => ⟨value, "", xsdStringNode⟩

/-- The first argument of the RDFDM.literal call in Literal.toRDF: the JS
expression strValue || typedValue.toString(), taking strValue when it is
defined and non-empty (truthy), else the toString of the typed value. -/
def Lit.lexicalForRDF (l : Lit) : Except Err String :=
  match l.strValue with
  | some s => if s = "" then l.typedValue.jsToString else .ok s
  | none => l.typedValue.jsToString

/-- The second argument of the RDFDM.literal call in Literal.toRDF: the JS
expression language || dataType. -/
def Lit.languageOrDatatype (l : Lit) : LangOrDt :=
  match l.language with
  | some lg =>
      if lg = "" then
        match l.dataType with
        | some d => .dt d
        | none => .undefined
      else .lang lg
  | none =>
      match l.dataType with
      | some d => .dt d
      | none => .undefined

/-- Literal.toRDF: RDFDM.literal(strValue || typedValue.toString(),
language || dataType). -/
def Lit.toRDF (l : Lit) : Except Err RDFLiteral :=
  match l.lexicalForRDF with
  | .error e => .error e
  | .ok v => .ok (RDFDM.literal v l.languageOrDatatype)

/-- A term expression (ITermExpression): the literal classes above, or a
term whose termType is variable (the interface admits exactly the
termTypes literal and variable). -/
inductive TermExpr where
  | lit (l : Lit)
  | varTerm (name : String)
deriving DecidableEq, Repr

/-- coerceEBV on a term: literals dispatch as above; a non-literal term
inherits Term.coerceEBV, which throws. -/
def TermExpr.coerceEBV : TermExpr → Except Err Bool
  | .lit l => l.coerceEBV
  | .varTerm _ => .error .notCoercible

/-- The dispatch key of one argument: the JS expression
a.category || a.termType. A literal has a category, which is a non-empty
string and hence truthy; a non-literal term has no category property
(undefined, falsy), so its termType is used. -/
def TermExpr.categoryOrTermType : TermExpr → String
  | .lit l => l.category.toStr
  | .varTerm _ => "variable"

theorem DataTypeCategory.toStr_ne_empty (c : DataTypeCategory) :
    c.toStr ≠ "" := by
  cases c <;> simp [DataTypeCategory.toStr]

/-- The expression tree (IExpression and its six variants). The existence
variant holds an opaque external algebra tree, modelled by an index. -/
inductive IExpr where
  | aggregate (aggregator : String) (distinct : Bool)
      (separator : Option String) (expression : IExpr)
  | existence (negated : Bool) (input : ℕ)
  | named (name : NamedNode) (args : List IExpr)
  | operatorExpr (operator : String) (operatorClass : String)
      (args : List IExpr)
  | term (t : TermExpr)
  | variableExpr (name : String)

/-- The type of the computations stored in operators:
(args: ITermExpression[]) => ITermExpression, which as JS code may also
throw. -/
def SimpleEvaluator := List TermExpr → Except Err TermExpr

/-- A constructed SimpleOperator: operator name, arity, argument
expressions, the declared signature (ArgumentType[], strings), and the
supplied computation. -/
structure SimpleOp where
  operator : String
  arity : ℕ
  args : List IExpr
  types : List String
  appImpl : SimpleEvaluator

/-- The SimpleOperator constructor: throws InvalidArity when
args.length !== arity, otherwise stores its fields; nothing is evaluated
here (the computation is stored, never called). -/
def SimpleOperator.construct (operator : String) (arity : ℕ)
    (args : List IExpr) (types : List String) (appImpl : SimpleEvaluator) :
    Except Err SimpleOp :=
  if args.length ≠ arity then .error (.invalidArity operator)
  else .ok ⟨operator, arity, args, types, appImpl⟩

/-- SimpleOperator.apply: _isValidTypes compares the declared types with
the dispatch keys of the arguments by deep equality (lodash isEqual on
string arrays, i.e. list equality); a mismatch throws
InvalidArgumentTypes, a match delegates to the computation. -/
def SimpleOp.apply (op : SimpleOp) (args : List TermExpr) :
    Except Err TermExpr :=
  if op.types = args.map TermExpr.categoryOrTermType then op.appImpl args
  else .error (.invalidArgumentTypes op.operator)

/-- The overload table: an immutable.js Map from a List of argument types
to a computation, modelled as an association list; immutable.js compares
keys structurally, which the structural lookup below reflects. -/
abbrev OverloadMap := List (List String × SimpleEvaluator)

/-- Map.get with a structurally compared key. -/
def OverloadMap.get : OverloadMap → List String → Option SimpleEvaluator
  | [], _ => none
  | (k, f) :: rest, key =>
      if k = key then some f else OverloadMap.get rest key

/-- A constructed OverloadedOperator. The class declares a private field
_overloadMap that no code ever assigns: the constructor parameter is the
distinct public field overloadMap. The never-assigned private field is
modelled as privateOverloadMap : Option OverloadMap, none meaning the JS
value undefined. -/
structure OverloadedOp where
  operator : String
  arity : ℕ
  args : List IExpr
  overloadMap : OverloadMap
  privateOverloadMap : Option OverloadMap

/-- The OverloadedOperator constructor: throws InvalidArity when
args.length !== arity, otherwise stores the public fields; the private
_overloadMap is left unassigned (undefined). -/
def OverloadedOperator.construct (operator : String) (arity : ℕ)
    (args : List IExpr) (overloadMap : OverloadMap) :
    Except Err OverloadedOp :=
  if args.length ≠ arity then .error (.invalidArity operator)
  else .ok ⟨operator, arity, args, overloadMap, none⟩

/-- OverloadedOperator._monomorph: builds the List of dispatch keys and
calls this._overloadMap.get on it. Since _overloadMap is the never
assigned private field, the .get read throws a TypeError whenever the
field is undefined. -/
def OverloadedOp.monomorph (op : OverloadedOp) (args : List TermExpr) :
    Except Err (Option SimpleEvaluator) :=
  match op.privateOverloadMap with
  | none => .error (undefinedRead "get")
  | some m => .ok (m.get (args.map TermExpr.categoryOrTermType))

/-- OverloadedOperator.apply: calls _monomorph; a falsy (absent) result
throws InvalidArgumentTypes, otherwise the found computation is invoked on
the arguments. An exception from _monomorph propagates. -/
def OverloadedOp.apply (op : OverloadedOp) (args : List TermExpr) :
    Except Err TermExpr :=
  match op.monomorph args with
  | .error e => .error e
  | .ok none => .error (.invalidArgumentTypes op.operator)
  | .ok (some f) => f args

-- ----------------------------------------------------------------------------
-- Example values used by witnesses and counterexamples
-- ----------------------------------------------------------------------------

/-- A NumericLiteral for the integer 1. -/
def exIntLitOne : Lit :=
  ⟨.numeric, .num (.fin 1), some "1", some xsdIntegerNode, none, .integer⟩

/-- A NumericLiteral for the integer 2. -/
def exIntLitTwo : Lit :=
  ⟨.numeric, .num (.fin 2), some "2", some xsdIntegerNode, none, .integer⟩

/-- A computation returning its first argument. -/
def exEchoFirst : SimpleEvaluator := fun args =>
  match args with
  | t :: _ => .ok t
  | [] => .error .unimplemented

/-- A computation ignoring its arguments. -/
def exConstTrue : SimpleEvaluator := fun _ =>
  .ok (.lit ⟨.boolean, .bool true, some "true", some xsdBooleanNode, none, .boolean⟩)

/-- A SimpleOperator of arity 1 whose declared signature is [integer]. -/
def exSimpleOp : SimpleOp := ⟨"str", 1, [.variableExpr "x"], ["integer"], exEchoFirst⟩

/-- An overload table holding exactly the key (integer, integer). -/
def exMapII : OverloadMap := [(["integer", "integer"], exConstTrue)]

-- ----------------------------------------------------------------------------
-- Claims
-- ----------------------------------------------------------------------------

/-- C2: a SimpleOperator application fails with TypeMismatchError
(InvalidArgumentTypes) exactly when the dispatch keys of the evaluated
arguments (runtime category, or termType for a non-literal term) do not
positionally equal the declared signature; on a match it delegates to the
supplied computation and returns its result unchanged, so apply itself
never introduces a TypeMismatchError. -/
theorem c2_simpleOperator_apply_dispatch (op : SimpleOp) (args : List TermExpr) :
    (op.types ≠ args.map TermExpr.categoryOrTermType →
      op.apply args = .error (.invalidArgumentTypes op.operator)) ∧
    (op.types = args.map TermExpr.categoryOrTermType →
      op.apply args = op.appImpl args) := by
  constructor <;> intro h <;> simp [SimpleOp.apply, h]

/-- C2 witness: the arity-1 operator with signature [integer] delegates on
an integer literal and rejects a variable term. -/
theorem c2_simpleOperator_apply_dispatch_witness :
    exSimpleOp.apply [.lit exIntLitOne] = .ok (.lit exIntLitOne) ∧
    exSimpleOp.apply [.varTerm "y"] = .error (.invalidArgumentTypes "str") := by
  have h1 := (c2_simpleOperator_apply_dispatch exSimpleOp [.lit exIntLitOne]).2 (by decide)
  have h2 := (c2_simpleOperator_apply_dispatch exSimpleOp [.varTerm "y"]).1 (by decide)
  exact ⟨h1.trans rfl, h2⟩

/-- C4: every successfully constructed NonLexicalLiteral has category
untyped and an absent (undefined) typed value, whatever value, lexical
form, datatype and language it was built from; terms are never mutated
after construction, so this holds permanently. -/
theorem c4_nonLexical_untyped (tv : JSVal) (sv : Option String)
    (dt : Option NamedNode) (lang : Option String) (l : Lit)
    (h : NonLexicalLiteral.construct tv sv dt lang = .ok l) :
    l.category = .untyped ∧ l.typedValue = .undefined := by
  cases dt with
  | none => simp [NonLexicalLiteral.construct, Literal.construct] at h
  | some d =>
      simp only [NonLexicalLiteral.construct, Literal.construct, Except.ok.injEq] at h
      subst h
      exact ⟨rfl, rfl⟩

/-- The object state produced by NonLexicalLiteral with lexical form abc
and datatype xsd:integer. -/
def exNonLexAbc : Lit :=
  ⟨.nonLexical, .undefined, some "abc", some xsdIntegerNode, none, .untyped⟩

/-- C4 witness: the construction with lexical form abc, datatype
xsd:integer. -/
theorem c4_nonLexical_untyped_witness :
    NonLexicalLiteral.construct (.str "abc") (some "abc") (some xsdIntegerNode) none =
      .ok exNonLexAbc ∧
    exNonLexAbc.category = .untyped ∧ exNonLexAbc.typedValue = .undefined :=
  ⟨rfl, c4_nonLexical_untyped (.str "abc") (some "abc") (some xsdIntegerNode) none
    exNonLexAbc rfl⟩

/-- C5: both operator constructors throw ArityError (InvalidArity) exactly
when the supplied argument-expression count differs from the declared
arity, and otherwise succeed, merely storing their fields: the stored
computation (or table) is untouched, so nothing is evaluated at
construction. -/
theorem c5_arity_checked_at_construction (operator : String) (arity : ℕ)
    (args : List IExpr) (types : List String) (appImpl : SimpleEvaluator)
    (m : OverloadMap) :
    (args.length ≠ arity →
      SimpleOperator.construct operator arity args types appImpl =
        .error (.invalidArity operator) ∧
      OverloadedOperator.construct operator arity args m =
        .error (.invalidArity operator)) ∧
    (args.length = arity →
      SimpleOperator.construct operator arity args types appImpl =
        .ok ⟨operator, arity, args, types, appImpl⟩ ∧
      OverloadedOperator.construct operator arity args m =
        .ok ⟨operator, arity, args, m, none⟩) := by
  constructor <;> intro h <;>
    exact ⟨by simp [SimpleOperator.construct, h],
           by simp [OverloadedOperator.construct, h]⟩

/-- C5 witness: BNODE declared with arity 0 but given one argument throws
InvalidArity; a 2-ary construction with two arguments succeeds. -/
theorem c5_arity_checked_at_construction_witness :
    SimpleOperator.construct "BNODE" 0 [.variableExpr "x"] [] exEchoFirst =
      .error (.invalidArity "BNODE") ∧
    OverloadedOperator.construct "+" 2 [.variableExpr "x", .variableExpr "y"] exMapII =
      .ok ⟨"+", 2, [.variableExpr "x", .variableExpr "y"], exMapII, none⟩ := by
  have h1 := (c5_arity_checked_at_construction "BNODE" 0 [.variableExpr "x"] []
    exEchoFirst exMapII).1 (by decide)
  have h2 := (c5_arity_checked_at_construction "+" 2
    [.variableExpr "x", .variableExpr "y"] [] exEchoFirst exMapII).2 (by decide)
  exact ⟨h1.1, h2.2⟩

/-- C8: overload lookup keys are compared structurally: two argument lists
with element-wise equal dispatch-key tuples make _monomorph select the
same computation, or fail identically, for any state of the private
overload-map field. -/
theorem c8_overload_lookup_structural (op : OverloadedOp)
    (a1 a2 : List TermExpr)
    (h : a1.map TermExpr.categoryOrTermType = a2.map TermExpr.categoryOrTermType) :
    op.monomorph a1 = op.monomorph a2 := by
  unfold OverloadedOp.monomorph
  cases op.privateOverloadMap with
  | none => rfl
  | some m => rw [h]

/-- An OverloadedOp whose private map field holds the (integer, integer)
table: the state the constructor evidently intended to set up. -/
def exOvWithMap : OverloadedOp :=
  ⟨"+", 2, [.variableExpr "x", .variableExpr "y"], exMapII, some exMapII⟩

/-- An OverloadedOp as actually produced by the constructor (private map
field left undefined). -/
def exOvPlus : OverloadedOp :=
  ⟨"+", 2, [.term (.lit exIntLitOne), .term (.lit exIntLitTwo)], exMapII, none⟩

/-- C8 witness: distinct integer literals share the dispatch-key tuple and
select identically, both for the constructor-produced state and for a
populated private map. -/
theorem c8_overload_lookup_structural_witness :
    exOvPlus.monomorph [.lit exIntLitOne, .lit exIntLitOne] =
      exOvPlus.monomorph [.lit exIntLitTwo, .lit exIntLitOne] ∧
    exOvWithMap.monomorph [.lit exIntLitOne, .lit exIntLitOne] =
      exOvWithMap.monomorph [.lit exIntLitTwo, .lit exIntLitOne] := by
  have h1 := c8_overload_lookup_structural exOvPlus
    [.lit exIntLitOne, .lit exIntLitOne] [.lit exIntLitTwo, .lit exIntLitOne] (by decide)
  have h2 := c8_overload_lookup_structural exOvWithMap
    [.lit exIntLitOne, .lit exIntLitOne] [.lit exIntLitTwo, .lit exIntLitOne] (by decide)
  exact ⟨h1, h2⟩

/-- C3 (bug): the constructor stores the table in the public field
overloadMap, but apply reads the distinct, never-assigned private field
_overloadMap; hence even with the (integer, integer) entry present in the
supplied table, applying to two integer literals raises the TypeError from
reading .get on undefined, instead of invoking the matched computation
(and a missing entry would raise that same TypeError, never
InvalidArgumentTypes). -/
theorem c3_overloaded_apply_always_crashes :
    OverloadedOperator.construct "+" 2
      [.term (.lit exIntLitOne), .term (.lit exIntLitTwo)] exMapII = .ok exOvPlus ∧
    exOvPlus.overloadMap.get ["integer", "integer"] = some exConstTrue ∧
    exOvPlus.apply [.lit exIntLitOne, .lit exIntLitTwo] =
      .error (undefinedRead "get") := by
  refine ⟨rfl, ?_, rfl⟩
  simp [exOvPlus, exMapII, OverloadMap.get]

/-- C6 (bug): Literal construction computes the category from the datatype
identifier immediately and performs no lexical validation, but it does not
always succeed: the optional dataType parameter is dereferenced
unconditionally, so an absent dataType raises a TypeError; with a present
datatype construction succeeds and stores the computed category. -/
theorem c6_literal_construct_crashes_on_absent_datatype :
    Literal.construct .base (.num (.fin 42)) (some "42") none none =
      .error (undefinedRead "value") ∧
    Literal.construct .base (.num (.fin 42)) (some "42") (some xsdIntegerNode) none =
      .ok ⟨.base, .num (.fin 42), some "42", some xsdIntegerNode, none, .integer⟩ := by
  refine ⟨rfl, ?_⟩
  simp [Literal.construct, categorize, xsdIntegerNode, xsdNS, rdfLangString]

/-- An OverloadedOperator of arity 1 as produced by its constructor. -/
def exOvStr : OverloadedOp := ⟨"str", 1, [.variableExpr "x"], [], none⟩

/-- C9 counterexample: an OverloadedOperator of arity 1 applied to two
evaluated arguments fails with the TypeError from the unassigned private
overload map, which is not InvalidArgumentTypes. -/
theorem c9_counterexample_overloaded_wrong_count :
    OverloadedOperator.construct "str" 1 [.variableExpr "x"] [] = .ok exOvStr ∧
    exOvStr.apply [.lit exIntLitOne, .lit exIntLitTwo] =
      .error (undefinedRead "get") ∧
    undefinedRead "get" ≠ Err.invalidArgumentTypes "str" := by
  exact ⟨rfl, rfl, by decide⟩

/-- C9 amended: arity is never re-checked at application time and
ArityError is never raised there. For a SimpleOperator whose declared
signature has as many entries as its arity, applying to a different number
of evaluated arguments fails with TypeMismatchError
(InvalidArgumentTypes); for an OverloadedOperator as produced by its
constructor (private overload map unassigned), every application,
including one with a wrong argument count, fails with the TypeError from
reading the unassigned map. -/
theorem c9_amended_apply_wrong_count (op : SimpleOp) (ov : OverloadedOp)
    (args : List TermExpr) (hTypes : op.types.length = op.arity)
    (hLen : args.length ≠ op.arity) (hPriv : ov.privateOverloadMap = none) :
    op.apply args = .error (.invalidArgumentTypes op.operator) ∧
    ov.apply args = .error (undefinedRead "get") := by
  constructor
  · have hne : op.types ≠ args.map TermExpr.categoryOrTermType := by
      intro hEq
      apply hLen
      rw [← hTypes, hEq, List.length_map]
    simp [SimpleOp.apply, hne]
  · simp [OverloadedOp.apply, OverloadedOp.monomorph, hPriv]

/-- C9 amended witness: the arity-1 simple operator applied to zero
arguments, and the constructor-produced overloaded operator applied to two
arguments. -/
theorem c9_amended_apply_wrong_count_witness :
    exSimpleOp.apply [] = .error (.invalidArgumentTypes "str") ∧
    exOvStr.apply [] = .error (undefinedRead "get") :=
  c9_amended_apply_wrong_count exSimpleOp exOvStr [] (by decide) (by decide) rfl

/-- The value field of the external literal factory is its first argument
in all three shapes of the second argument. -/
theorem RDFDM.literal_value (v : String) (x : LangOrDt) :
    (RDFDM.literal v x).value = v := by
  cases x <;> rfl

/-- C10: when the original lexical string is present but empty, toRDF uses
the toString of the typed value as the output lexical value instead of the
empty lexical string, because the source selects it by JS truthiness
(strValue || typedValue.toString()) rather than by a presence check. -/
theorem c10_empty_lexical_uses_typedValue (l : Lit) (v : String)
    (r : RDFLiteral) (hs : l.strValue = some "")
    (hv : l.typedValue.jsToString = .ok v) (hr : l.toRDF = .ok r) :
    r.value = v := by
  unfold Lit.toRDF Lit.lexicalForRDF at hr
  rw [hs] at hr
  simp only [if_pos rfl, hv, if_true, Except.ok.injEq] at hr
  rw [← hr, RDFDM.literal_value]

/-- The Literal state with typed value 42 and present-but-empty lexical
form. -/
def exL10 : Lit :=
  ⟨.numeric, .num (.fin 42), some "", some xsdIntegerNode, none, .integer⟩

/-- The rdf-js literal that exL10 renders to. -/
def exR10 : RDFLiteral := ⟨"42", "", xsdIntegerNode⟩

/-- C10 witness: the empty lexical form is replaced by the string form of
the typed value 42. -/
theorem c10_empty_lexical_uses_typedValue_witness :
    exL10.toRDF = .ok exR10 ∧ exR10.value = "42" :=
  ⟨rfl, c10_empty_lexical_uses_typedValue exL10 "42" exR10 rfl rfl rfl⟩

/-- A StringLiteral whose optional lexical form was not supplied. -/
def exStrNoLexical : Lit :=
  ⟨.simpleString, .str "x", none, some xsdStringNode, none, .str⟩

/-- C1 counterexample: a simple-string literal without a lexical form does
not return a boolean from coerceEBV at all; reading .length from the
absent strValue raises a TypeError (and not the deliberate coercion
TypeError either). -/
theorem c1_counterexample_string_without_lexical :
    Literal.construct .simpleString (.str "x") none (some xsdStringNode) none =
      .ok exStrNoLexical ∧
    exStrNoLexical.coerceEBV = .error (undefinedRead "length") ∧
    exStrNoLexical.coerceEBV ≠ .ok true ∧ exStrNoLexical.coerceEBV ≠ .ok false := by
  refine ⟨?_, rfl, fun h => Except.noConfusion h, fun h => Except.noConfusion h⟩
  simp [Literal.construct, exStrNoLexical, categorize, xsdStringNode, xsdNS, rdfLangString]

/-- C1 amended: coerceEBV dispatches on the dynamic literal class. A
NumericLiteral returns the JS truthiness of its number, which is true
exactly when the number is neither NaN nor zero (so 0 and NaN give false,
every other number true); a BooleanLiteral returns its value; a
PlainLiteral or StringLiteral returns lexical length different from 0 when
the lexical form is present, and raises the TypeError from reading .length
of undefined when it is absent; every other class (base Literal,
DateTimeLiteral, NonLexicalLiteral) fails with the coercion TypeError, the
NotCoercibleError of the spec. -/
theorem c1_amended_coerceEBV_by_class (l : Lit) :
    (∀ n : JSNum, l.kind = .numeric → l.typedValue = .num n →
      l.coerceEBV = .ok n.truthy ∧ (n.truthy = true ↔ n ≠ .nan ∧ n ≠ .fin 0)) ∧
    (∀ b : Bool, l.kind = .boolean → l.typedValue = .bool b →
      l.coerceEBV = .ok b) ∧
    ((l.kind = .plain ∨ l.kind = .simpleString) →
      (∀ s : String, l.strValue = some s →
        l.coerceEBV = .ok (decide (s.length ≠ 0))) ∧
      (l.strValue = none → l.coerceEBV = .error (undefinedRead "length"))) ∧
    ((l.kind = .base ∨ l.kind = .dateTime ∨ l.kind = .nonLexical) →
      l.coerceEBV = .error .notCoercible) := by
  obtain ⟨k, tv, sv, dt, lang, cat⟩ := l
  refine ⟨?_, ?_, ?_, ?_⟩
  · rintro n rfl rfl
    refine ⟨rfl, ?_⟩
    cases n <;> simp [JSNum.truthy]
  · rintro b rfl rfl
    rfl
  · rintro (rfl | rfl) <;> refine ⟨fun s hs => ?_, fun hs => ?_⟩ <;>
      simp only at hs <;> subst hs <;> rfl
  · rintro (rfl | rfl | rfl) <;> rfl

/-- C1 amended witness: the NumericLiteral 2 coerces to true; the
NonLexicalLiteral fails with the coercion TypeError. -/
theorem c1_amended_coerceEBV_by_class_witness :
    exIntLitTwo.coerceEBV = .ok true ∧
    exNonLexAbc.coerceEBV = .error .notCoercible := by
  have h1 := ((c1_amended_coerceEBV_by_class exIntLitTwo).1 (.fin 2) rfl rfl).1
  have h2 := (c1_amended_coerceEBV_by_class exNonLexAbc).2.2.2 (Or.inr (Or.inr rfl))
  exact ⟨h1.trans rfl, h2⟩

/-- The lexical value toRDF passes to the factory is the strValue when it
is present and non-empty. -/
theorem Lit.lexicalForRDF_of_nonempty (l : Lit) (s : String)
    (h1 : l.strValue = some s) (h2 : s ≠ "") : l.lexicalForRDF = .ok s := by
  unfold Lit.lexicalForRDF
  rw [h1]
  exact if_neg h2

/-- A present non-empty language wins the language || dataType choice. -/
theorem Lit.languageOrDatatype_of_lang (l : Lit) (lg : String)
    (h1 : l.language = some lg) (h2 : lg ≠ "") :
    l.languageOrDatatype = .lang lg := by
  unfold Lit.languageOrDatatype
  rw [h1]
  exact if_neg h2

/-- With a falsy language and a present dataType, the dataType is passed. -/
theorem Lit.languageOrDatatype_of_dt (l : Lit) (d : NamedNode)
    (h1 : l.language = none ∨ l.language = some "")
    (hd : l.dataType = some d) : l.languageOrDatatype = .dt d := by
  unfold Lit.languageOrDatatype
  rcases h1 with h1 | h1 <;> rw [h1, hd] <;> rfl

/-- With a falsy language and an absent dataType, undefined is passed. -/
theorem Lit.languageOrDatatype_of_undefined (l : Lit)
    (h1 : l.language = none ∨ l.language = some "")
    (hd : l.dataType = none) : l.languageOrDatatype = .undefined := by
  unfold Lit.languageOrDatatype
  rcases h1 with h1 | h1 <;> rw [h1, hd] <;> rfl

/-- toRDF in terms of its two computed factory arguments. -/
theorem Lit.toRDF_of_lexical (l : Lit) (v : String)
    (hv : l.lexicalForRDF = .ok v) :
    l.toRDF = .ok (RDFDM.literal v l.languageOrDatatype) := by
  unfold Lit.toRDF
  rw [hv]

/-- toRDF propagates the failure of the lexical computation. -/
theorem Lit.toRDF_of_lexical_error (l : Lit) (e : Err)
    (hv : l.lexicalForRDF = .error e) : l.toRDF = .error e := by
  unfold Lit.toRDF
  rw [hv]

/-- The Literal state with typed value 42, empty lexical form, datatype
xsd:integer and language en. -/
def exC7 : Lit :=
  ⟨.base, .num (.fin 42), some "", some xsdIntegerNode, some "en", .integer⟩

/-- C7 counterexample: with a present-but-empty lexical form, a language
tag and datatype xsd:integer, the wire form carries the toString of the
typed value (42), not the original lexical string, and carries datatype
rdf:langString, not the original xsd:integer. -/
theorem c7_counterexample_lexical_and_datatype_changed :
    Literal.construct .base (.num (.fin 42)) (some "") (some xsdIntegerNode)
      (some "en") = .ok exC7 ∧
    exC7.toRDF = .ok ⟨"42", "en", rdfLangString⟩ ∧
    ("42" : String) ≠ "" ∧ rdfLangString ≠ xsdIntegerNode := by
  refine ⟨?_, rfl, by decide, by decide⟩
  simp [Literal.construct, exC7, categorize, xsdIntegerNode, xsdNS, rdfLangString]

/-- The lexical value toRDF passes to the factory is the toString of the
typed value when the strValue is falsy (absent or empty). -/
theorem Lit.lexicalForRDF_of_falsy (l : Lit)
    (h1 : l.strValue = none ∨ l.strValue = some "") :
    l.lexicalForRDF = l.typedValue.jsToString := by
  unfold Lit.lexicalForRDF
  rcases h1 with h1 | h1 <;> rw [h1] <;> rfl

/-- C7 amended: when toRDF succeeds, the wire-form lexical value is the
original lexical string when that is present and non-empty, and the
toString of the typed value when the lexical string is absent or empty; a
present non-empty language tag is passed through unchanged but forces
datatype rdf:langString; with no (or an empty) language tag, the datatype
is passed through unchanged, and defaults to xsd:string when absent. When
the lexical string is absent or empty and the typed value is also absent
(undefined), toRDF fails with the TypeError from reading .toString of
undefined. -/
theorem c7_amended_toRDF (l : Lit) :
    (∀ r : RDFLiteral, l.toRDF = .ok r →
      (∀ s : String, l.strValue = some s → s ≠ "" → r.value = s) ∧
      (∀ v : String, (l.strValue = none ∨ l.strValue = some "") →
        l.typedValue.jsToString = .ok v → r.value = v) ∧
      (∀ lg : String, l.language = some lg → lg ≠ "" →
        r.language = lg ∧ r.datatype = rdfLangString) ∧
      ((l.language = none ∨ l.language = some "") →
        (∀ d : NamedNode, l.dataType = some d →
          r.language = "" ∧ r.datatype = d) ∧
        (l.dataType = none → r.language = "" ∧ r.datatype = xsdStringNode))) ∧
    ((l.strValue = none ∨ l.strValue = some "") → l.typedValue = .undefined →
      l.toRDF = .error (undefinedRead "toString")) := by
  constructor
  · intro r h
    refine ⟨?_, ?_, ?_, ?_⟩
    · intro s hs hne
      have h2 := (Lit.toRDF_of_lexical l s
        (Lit.lexicalForRDF_of_nonempty l s hs hne)).symm.trans h
      injection h2 with h2
      rw [← h2, RDFDM.literal_value]
    · intro v hfalsy hv
      have h2 := (Lit.toRDF_of_lexical l v
        ((Lit.lexicalForRDF_of_falsy l hfalsy).trans hv)).symm.trans h
      injection h2 with h2
      rw [← h2, RDFDM.literal_value]
    · intro lg hlg hne
      cases hx : l.lexicalForRDF with
      | error e => exact Except.noConfusion ((Lit.toRDF_of_lexical_error l e hx).symm.trans h)
      | ok v =>
        have h2 := (Lit.toRDF_of_lexical l v hx).symm.trans h
        injection h2 with h2
        rw [← h2, Lit.languageOrDatatype_of_lang l lg hlg hne]
        exact ⟨rfl, rfl⟩
    · intro hfalsy
      cases hx : l.lexicalForRDF with
      | error e => exact Except.noConfusion ((Lit.toRDF_of_lexical_error l e hx).symm.trans h)
      | ok v =>
        have h2 := (Lit.toRDF_of_lexical l v hx).symm.trans h
        injection h2 with h2
        refine ⟨fun d hd => ?_, fun hd => ?_⟩
        · rw [← h2, Lit.languageOrDatatype_of_dt l d hfalsy hd]
          exact ⟨rfl, rfl⟩
        · rw [← h2, Lit.languageOrDatatype_of_undefined l hfalsy hd]
          exact ⟨rfl, rfl⟩
  · intro hfalsy htv
    refine Lit.toRDF_of_lexical_error l _ ?_
    rw [Lit.lexicalForRDF_of_falsy l hfalsy, htv]
    rfl

/-- The rdf-js literal the NonLexicalLiteral with lexical form abc renders
to. -/
def exRabc : RDFLiteral := ⟨"abc", "", xsdIntegerNode⟩

/-- A NonLexicalLiteral built without a lexical form: typed value and
lexical form both absent. -/
def exNLNoLexical : Lit :=
  ⟨.nonLexical, .undefined, none, some xsdIntegerNode, none, .untyped⟩

/-- The rdf-js literal the lexical-form-less string literal renders to. -/
def exRx : RDFLiteral := ⟨"x", "", xsdStringNode⟩

/-- C7 amended witness: the NonLexicalLiteral built from lexical abc
renders back abc with its datatype passed through; a string literal whose
lexical form is absent renders the toString of its typed value; a
NonLexicalLiteral with neither lexical form nor typed value makes toRDF
fail with the TypeError. -/
theorem c7_amended_toRDF_witness :
    exNonLexAbc.toRDF = .ok exRabc ∧
    exRabc.value = "abc" ∧ exRabc.datatype = xsdIntegerNode ∧
    exStrNoLexical.toRDF = .ok exRx ∧ exRx.value = "x" ∧
    exNLNoLexical.toRDF = .error (undefinedRead "toString") := by
  have h := (c7_amended_toRDF exNonLexAbc).1 exRabc rfl
  have hfb := ((c7_amended_toRDF exStrNoLexical).1 exRx rfl).2.1
    "x" (Or.inl rfl) rfl
  exact ⟨rfl, h.1 "abc" rfl (by decide),
    ((h.2.2.2 (Or.inl rfl)).1 xsdIntegerNode rfl).2, rfl, hfb,
    (c7_amended_toRDF exNLNoLexical).2 (Or.inl rfl) rfl⟩
